import Mathlib

/-!
Verification development for the adaptive rendering quality controller of the
3dgs_gallery viewer (manual-lod.js, ui.js, scene.js / event-manager bundle).

The JavaScript source is shallowly embedded: each DRS (dynamic resolution
scaling) function becomes a pure Lean function on an explicit state record,
JS numbers are modelled as rationals extended with NaN and the two infinities,
and the single asynchronous element (the hysteresis `setTimeout` callback) is
modelled as an explicit `fireTimer` step that runs the scheduled callback
when a timer handle is still pending.
-/

/-- Model of a JavaScript number: a finite rational, `NaN`, or an infinity.
The DRS code only ever manipulates such values with comparisons, `Math.min`,
`Math.max`, `Math.abs` and subtraction. -/
inductive JSNum where
  | nan : JSNum
  | posInf : JSNum
  | negInf : JSNum
  | fin : ℚ → JSNum
deriving DecidableEq, Repr

/-- JavaScript `<` on numbers: any comparison involving NaN is false. -/
def JSNum.lt : JSNum → JSNum → Bool
  | .nan, _ => false
  | _, .nan => false
  | .posInf, _ => false
  | .negInf, .negInf => false
  | .negInf, _ => true
  | .fin _, .negInf => false
  | .fin _, .posInf => true
  | .fin a, .fin b => decide (a < b)

/-- JavaScript `Math.min`: NaN-propagating, otherwise the smaller value. -/
def JSNum.jmin : JSNum → JSNum → JSNum
  | .nan, _ => .nan
  | _, .nan => .nan
  | a, b => if JSNum.lt b a then b else a

/-- JavaScript `Math.max`: NaN-propagating, otherwise the larger value. -/
def JSNum.jmax : JSNum → JSNum → JSNum
  | .nan, _ => .nan
  | _, .nan => .nan
  | a, b => if JSNum.lt a b then b else a

/-- JavaScript subtraction on numbers. -/
def JSNum.sub : JSNum → JSNum → JSNum
  | .nan, _ => .nan
  | _, .nan => .nan
  | .posInf, .posInf => .nan
  | .posInf, _ => .posInf
  | .negInf, .negInf => .nan
  | .negInf, _ => .negInf
  | .fin _, .posInf => .negInf
  | .fin _, .negInf => .posInf
  | .fin a, .fin b => .fin (a - b)

/-- JavaScript `Math.abs` on numbers. -/
def JSNum.abs : JSNum → JSNum
  | .nan => .nan
  | .posInf => .posInf
  | .negInf => .posInf
  | .fin a => .fin |a|

/-- ui.js `setPixelRatio(ratio)` (lines 201-249), restricted to its effect on
the stored state `window.currentPixelRatio`.  The argument is a JS number, so
the `typeof ratio !== 'number'` disjunct of the validity guard is false and
only the range tests remain; out-of-range values are clamped by
`Math.max(minRatio, Math.min(maxRatio, ratio))`; then the update is skipped
when `Math.abs(window.currentPixelRatio - ratio) < 0.01`. -/
def setPixelRatio (current ratio : JSNum) : JSNum :=
  let minRatio : JSNum := .fin (1/10)
  let maxRatio : JSNum := .fin (3/2)
  let ratio := if ratio.lt minRatio || maxRatio.lt ratio
               then minRatio.jmax (maxRatio.jmin ratio)
               else ratio
  if ((current.sub ratio).abs).lt (.fin (1/100)) then current else ratio

/-- Modelled from the spec: the clamp function `clamp(r, 0.1, 1.5)` that the
spec's testable property quotes, written over the rationals. -/
def specClamp (r : ℚ) : ℚ := max (1/10) (min (3/2) r)

/-- ui.js main.js boot value of `window.currentPixelRatio`:
`CONFIG.SCENE.DEFAULT_PIXEL_RATIO`, which config.js sets to 0.5. -/
def DEFAULT_PIXEL_RATIO : ℚ := 1/2

/-- A finite sequence of calls to the ratio applier, folded over the stored
pixel-ratio state. -/
def applyRatioCalls (init : JSNum) (calls : List JSNum) : JSNum :=
  calls.foldl setPixelRatio init

/-- Decides whether a stored pixel-ratio state is a finite value inside the
clamp bounds [0.1, 1.5]. -/
def ratioInBounds : JSNum → Bool
  | .fin q => decide (1/10 ≤ q ∧ q ≤ 3/2)
  | _ => false

/-- A camera position (BABYLON.Vector3), with exact rational coordinates. -/
structure Vec3 where
  x : ℚ
  y : ℚ
  z : ℚ
deriving DecidableEq, Repr

/-- A camera orientation (BABYLON.Quaternion), with exact rational coordinates.
The source guarantees `camera.rotationQuaternion` exists before it is read (it
creates one from the Euler rotation if absent), so the model carries the
quaternion directly. -/
structure Quat where
  x : ℚ
  y : ℚ
  z : ℚ
  w : ℚ
deriving DecidableEq, Repr

/-- BABYLON.Vector3.DistanceSquared. -/
def Vec3.distanceSquared (a b : Vec3) : ℚ :=
  (a.x - b.x) ^ 2 + (a.y - b.y) ^ 2 + (a.z - b.z) ^ 2

/-- BABYLON.Quaternion.Dot. -/
def Quat.dot (a b : Quat) : ℚ :=
  a.x * b.x + a.y * b.y + a.z * b.z + a.w * b.w

/-- The camera pose read by the movement detector. -/
structure Camera where
  position : Vec3
  rotationQuaternion : Quat
deriving DecidableEq, Repr

/-- The external collaborators a DRS call can read: camera, engine and scene
availability, the page visibility flag, the user-agent mobile classification
used by `initWithDefaults`, and the virtual-joystick globals
(`window.joystickVector` with optional chaining, `window.joystickActive`,
`window.joystickVisible`). -/
structure Env where
  camera : Option Camera
  enginePresent : Bool
  engineDisposed : Bool
  scenePresent : Bool
  documentHidden : Bool
  isMobileUA : Bool
  joystickVector : Option (ℚ × ℚ)
  joystickActive : Bool
  joystickVisible : Bool
deriving DecidableEq, Repr

/-- The four manual presets of manual-lod.js. -/
inductive PresetName where
  | FULL
  | HIGH
  | MEDIUM
  | LOW
deriving DecidableEq, Repr

/-- PIXEL_RATIO_PRESETS (manual-lod.js lines 4-9), pixelRatio field only. -/
def PIXEL_RATIO_PRESETS : PresetName → ℚ
  | .FULL => 1
  | .HIGH => 3/4
  | .MEDIUM => 1/2
  | .LOW => 7/20

/-- manual-lod.js `movementDetectionThresholdPosSq = 0.0005`. -/
def movementDetectionThresholdPosSq : ℚ := 1/2000

/-- manual-lod.js `movementDetectionThresholdRotDot = 0.99995`. -/
def movementDetectionThresholdRotDot : ℚ := 19999/20000

/-- manual-lod.js `joystickMovementThreshold = 0.1`. -/
def joystickMovementThreshold : ℚ := 1/10

/-- manual-lod.js `DRS_CHECK_INTERVAL = 5`. -/
def DRS_CHECK_INTERVAL : ℕ := 5

/-- The module-level mutable state of manual-lod.js together with the
process-wide `window.currentPixelRatio` owned by ui.js.  `movementTimeoutId`
is `true` exactly when a hysteresis `setTimeout` handle is outstanding;
`clearTimeout(movementTimeoutId); movementTimeoutId = null` is modelled by
setting the flag to `false`, after which the scheduled callback can no longer
fire. -/
structure DRSState where
  isDynamicResolutionActive : Bool
  currentPixelRatioPreset : Option PresetName
  drsFrameCounter : ℕ
  dynamicHighPixelRatio : ℚ
  dynamicLowPixelRatio : ℚ
  movementTimeoutId : Bool
  lastCameraPosition : Option Vec3
  lastCameraRotationQ : Option Quat
  isConsideredMoving : Bool
  currentPixelRatio : JSNum
deriving DecidableEq, Repr

/-- manual-lod.js `hasCameraMoved(forceCheck)` (lines 218-267).  Returns the
`moved` result together with the state after the call (the snapshot fields
`lastCameraPosition` / `lastCameraRotationQ` are the only ones written). -/
def hasCameraMoved (env : Env) (s : DRSState) (forceCheck : Bool) : Bool × DRSState :=
  match env.camera with
  | none => (false, s)
  | some cam =>
    if !env.enginePresent || env.engineDisposed then (false, s)
    else
      let initNeeded := s.lastCameraPosition.isNone || s.lastCameraRotationQ.isNone
      let s1 := if initNeeded then
                  { s with lastCameraPosition := some cam.position,
                           lastCameraRotationQ := some cam.rotationQuaternion }
                else s
      if initNeeded && !forceCheck then (false, s1)
      else
        let lastP := s1.lastCameraPosition.getD cam.position
        let lastQ := s1.lastCameraRotationQ.getD cam.rotationQuaternion
        let posChanged :=
          decide (Vec3.distanceSquared cam.position lastP > movementDetectionThresholdPosSq)
        let rotChanged :=
          decide (|Quat.dot cam.rotationQuaternion lastQ| < movementDetectionThresholdRotDot)
        let joyX := (env.joystickVector.map Prod.fst).getD 0
        let joyY := (env.joystickVector.map Prod.snd).getD 0
        let joystickMoving := env.joystickActive && env.joystickVisible &&
          (decide (|joyX| > joystickMovementThreshold) ||
           decide (|joyY| > joystickMovementThreshold))
        let moved := posChanged || rotChanged || joystickMoving
        let s2 := if !forceCheck && (s1.isDynamicResolutionActive || moved) then
                    { s1 with lastCameraPosition := some cam.position,
                              lastCameraRotationQ := some cam.rotationQuaternion }
                  else s1
        (moved, s2)

/-- manual-lod.js `applyDynamicResolution(targetRatio)` (lines 183-188):
a direct call into the central `setPixelRatio`. -/
def applyDynamicResolution (s : DRSState) (targetRatio : ℚ) : DRSState :=
  { s with currentPixelRatio := setPixelRatio s.currentPixelRatio (.fin targetRatio) }

/-- manual-lod.js `activateDynamicResolution()` (lines 126-158). -/
def activateDynamicResolution (env : Env) (s : DRSState) : DRSState :=
  if s.isDynamicResolutionActive then s
  else
    let s1 := { s with isDynamicResolutionActive := true, currentPixelRatioPreset := none }
    let mr := hasCameraMoved env s1 true
    let s2 := { mr.2 with isConsideredMoving := mr.1 }
    if mr.1 then
      applyDynamicResolution s2 s2.dynamicLowPixelRatio
    else
      let s3 := applyDynamicResolution s2 s2.dynamicHighPixelRatio
      { s3 with movementTimeoutId := false }

/-- manual-lod.js `deactivateDynamicResolution()` (lines 161-180), exactly as
written: after the guard clause, `if (++drsFrameCounter % DRS_CHECK_INTERVAL
!== 0) return` runs before any state is reset, so the counter is always
incremented and the deactivation body is reached only when the incremented
counter is a multiple of 5. -/
def deactivateDynamicResolution (env : Env) (s : DRSState) : DRSState :=
  if !s.isDynamicResolutionActive || !env.enginePresent || env.engineDisposed
      || env.documentHidden then s
  else
    let s1 := { s with drsFrameCounter := s.drsFrameCounter + 1 }
    if s1.drsFrameCounter % DRS_CHECK_INTERVAL ≠ 0 then s1
    else { s1 with isDynamicResolutionActive := false,
                   movementTimeoutId := false,
                   isConsideredMoving := false }

/-- manual-lod.js `applyPixelRatioPreset(presetName)` (lines 106-123).  The
preset name is an enum value here, so the invalid-preset early return cannot
trigger. -/
def applyPixelRatioPreset (env : Env) (s : DRSState) (presetName : PresetName) : DRSState :=
  let s1 := deactivateDynamicResolution env s
  let s2 := { s1 with currentPixelRatioPreset := some presetName }
  { s2 with currentPixelRatio :=
      setPixelRatio s2.currentPixelRatio (.fin (PIXEL_RATIO_PRESETS presetName)) }

/-- manual-lod.js `updateDynamicResolutionLogic()` (lines 270-318), the
per-frame tick, up to and including the decision to schedule the hysteresis
timer; the scheduled callback itself is `fireTimer`. -/
def updateDynamicResolutionLogic (env : Env) (s : DRSState) : DRSState :=
  if !s.isDynamicResolutionActive || !env.enginePresent || env.engineDisposed
      || !env.scenePresent || env.camera.isNone || env.documentHidden then
    if !s.isDynamicResolutionActive && s.movementTimeoutId then
      { s with movementTimeoutId := false }
    else s
  else
    let mr := hasCameraMoved env s false
    let s1 := mr.2
    if mr.1 then
      let s2 := { s1 with isConsideredMoving := true }
      let s3 := if JSNum.lt (.fin (1/100))
                    ((s2.currentPixelRatio.sub (.fin s2.dynamicLowPixelRatio)).abs)
                then applyDynamicResolution s2 s2.dynamicLowPixelRatio
                else s2
      { s3 with movementTimeoutId := false }
    else
      if !s1.movementTimeoutId then { s1 with movementTimeoutId := true } else s1

/-- The callback passed to `setTimeout` in `updateDynamicResolutionLogic`
(manual-lod.js lines 304-316), run when the hysteresis delay elapses.  It
executes only while its handle is still pending: `clearTimeout` on a pending
handle prevents the callback from ever running, which the model expresses by
making `fireTimer` the identity once `movementTimeoutId` is `false`. -/
def fireTimer (s : DRSState) : DRSState :=
  if s.movementTimeoutId then
    let s1 := if s.isDynamicResolutionActive then
                { applyDynamicResolution s s.dynamicHighPixelRatio with
                    isConsideredMoving := false }
              else
                { s with isConsideredMoving := false }
    { s1 with movementTimeoutId := false }
  else s

/-- manual-lod.js `initWithDefaults()` (lines 351-387), exactly as written:
`initialModeIsDynamic` is the literal `true`, so the dynamic branch (a forced
movement check when a camera exists, then `activateDynamicResolution`) is the
one taken, and the manual branch `applyPixelRatioPreset('MEDIUM')` is dead. -/
def initWithDefaults (env : Env) (s : DRSState) : DRSState :=
  let initialModeIsDynamic := true
  let initialManualPreset := PresetName.MEDIUM
  let s1 := if env.isMobileUA then
              { s with dynamicHighPixelRatio := PIXEL_RATIO_PRESETS .MEDIUM,
                       dynamicLowPixelRatio := PIXEL_RATIO_PRESETS .LOW }
            else
              { s with dynamicHighPixelRatio := PIXEL_RATIO_PRESETS .FULL,
                       dynamicLowPixelRatio := PIXEL_RATIO_PRESETS .MEDIUM }
  if initialModeIsDynamic then
    let s2 := if env.camera.isSome then (hasCameraMoved env s1 true).2 else s1
    activateDynamicResolution env s2
  else
    applyPixelRatioPreset env s1 initialManualPreset

/-- The state owned by the frustum-culling observer closure in
`setupFrustumCullingObserver` (scene.js section of event-manager bundle):
the cached last frustum result `lastVisibilityState` (initialized `true`) and
the tracked mesh's `isVisible` flag that the observer writes. -/
structure CullState where
  lastVisibilityState : Bool
  meshVisible : Bool
deriving DecidableEq, Repr

/-- The body of one frustum check frame (lines 248-302 of the observer), for
a frame that passed the interval gate and the dependency bail-outs.
`hasBoundingInfo` is whether any of the three bounding sources (observer
cache, `_cachedBoundingInfo`, `getBoundingInfo`) yields bounding information;
`inFrustum` is the result of `camera.isInFrustum(boundingSphere)`.  Returns
the new state and whether the mesh visibility flag was written. -/
def frustumCheckFrame (s : CullState) (hasBoundingInfo inFrustum : Bool) :
    CullState × Bool :=
  if !hasBoundingInfo then
    if s.lastVisibilityState ≠ true then
      ({ lastVisibilityState := true, meshVisible := true }, true)
    else (s, false)
  else
    if s.lastVisibilityState ≠ inFrustum then
      ({ lastVisibilityState := inFrustum, meshVisible := inFrustum }, true)
    else (s, false)

/-- Feed a sequence of frustum-test results to the culler on consecutive
check frames (bounding info available on each), counting visibility writes. -/
def cullRun (s : CullState) : List Bool → CullState × ℕ
  | [] => (s, 0)
  | r :: rs =>
    let step := frustumCheckFrame s true r
    let rest := cullRun step.1 rs
    (rest.1, (if step.2 then 1 else 0) + rest.2)

/-- Modelled from the spec: the number of adjacent changes of a sequence of
frustum results relative to an initial cached value. -/
def adjacentChanges : Bool → List Bool → ℕ
  | _, [] => 0
  | prev, r :: rs => (if prev ≠ r then 1 else 0) + adjacentChanges r rs

/-- The check-interval selection of the culling observer (lines 229-243):
per device tier, a "moving" interval when `window.joystickActive ||
window.isConsideredMoving` is truthy and a "stationary" interval otherwise. -/
def checkInterval (isLowEndDevice isMobile joystickActive winIsConsideredMoving : Bool) : ℕ :=
  if isLowEndDevice then
    if joystickActive || winIsConsideredMoving then 12 else 60
  else if isMobile then
    if joystickActive || winIsConsideredMoving then 8 else 45
  else
    if joystickActive || winIsConsideredMoving then 5 else 30

/-- The value the culler reads at `window.isConsideredMoving`.  In the source,
`isConsideredMoving` (manual-lod.js line 30) is a top-level `let` of a classic
script, which does not create a property on `window`, and no statement in the
repository ever assigns `window.isConsideredMoving`; the property read
therefore yields `undefined`, which coerces to `false` in the boolean-valued
interval condition, whatever the DRS-local flag currently holds. -/
def windowIsConsideredMoving (_s : DRSState) : Bool := false

/-- A camera sitting at the origin pose. -/
def camStd : Camera :=
  { position := { x := 0, y := 0, z := 0 },
    rotationQuaternion := { x := 0, y := 0, z := 0, w := 1 } }

/-- A camera translated one unit along x from the origin pose. -/
def camMoved : Camera :=
  { position := { x := 1, y := 0, z := 0 },
    rotationQuaternion := { x := 0, y := 0, z := 0, w := 1 } }

/-- A healthy desktop runtime: engine and scene up, tab visible, camera at the
origin pose, joystick idle. -/
def envStd : Env :=
  { camera := some camStd,
    enginePresent := true,
    engineDisposed := false,
    scenePresent := true,
    documentHidden := false,
    isMobileUA := false,
    joystickVector := some (0, 0),
    joystickActive := false,
    joystickVisible := false }

/-- `envStd` with a mobile user agent. -/
def envMobile : Env := { envStd with isMobileUA := true }

/-- `envStd` after the camera moved away from the snapshotted origin pose. -/
def envMovedCam : Env := { envStd with camera := some camMoved }

/-- The manual-lod.js module state right after `initManualLOD` ran and before
`initWithDefaults`: all declaration initializers, the snapshot taken from the
camera by `initDynamicResolutionSystem`, and `window.currentPixelRatio` at its
main.js boot value. -/
def bootState : DRSState :=
  { isDynamicResolutionActive := false,
    currentPixelRatioPreset := none,
    drsFrameCounter := 0,
    dynamicHighPixelRatio := 3/4,
    dynamicLowPixelRatio := 1/2,
    movementTimeoutId := false,
    lastCameraPosition := some camStd.position,
    lastCameraRotationQ := some camStd.rotationQuaternion,
    isConsideredMoving := false,
    currentPixelRatio := .fin DEFAULT_PIXEL_RATIO }

/-- A Dynamic-mode state on desktop targets (low 0.5 / high 1.0), currently at
the low ratio with a hysteresis timer pending and the frame counter at 0. -/
def pendingDynamicState : DRSState :=
  { bootState with
      isDynamicResolutionActive := true,
      dynamicHighPixelRatio := 1,
      movementTimeoutId := true,
      isConsideredMoving := true }

/-- `pendingDynamicState` with the frame counter at 4, so that the next
`deactivateDynamicResolution` call increments it to a multiple of 5 and the
deactivation body actually runs. -/
def almostDeactState : DRSState := { pendingDynamicState with drsFrameCounter := 4 }

/-- Manual Medium on desktop DRS targets (low 0.5 / high 1.0). -/
def manualMediumDesktop : DRSState :=
  { bootState with
      dynamicHighPixelRatio := 1,
      currentPixelRatioPreset := some .MEDIUM }

/-- Manual Medium on mobile DRS targets (low 0.35 / high 0.5), as
`initWithDefaults` configures them for any mobile device, low-end included. -/
def manualMediumMobile : DRSState :=
  { bootState with
      dynamicHighPixelRatio := 1/2,
      dynamicLowPixelRatio := 7/20,
      currentPixelRatioPreset := some .MEDIUM }

lemma JSNum.lt_fin_fin (a b : ℚ) : JSNum.lt (.fin a) (.fin b) = decide (a < b) := rfl

lemma JSNum.jmin_fin_fin (a b : ℚ) : JSNum.jmin (.fin a) (.fin b) = .fin (min a b) := by
  simp only [JSNum.jmin, JSNum.lt_fin_fin]
  rcases lt_or_le b a with h | h
  · simp [h, min_eq_right h.le]
  · simp [not_lt.mpr h, min_eq_left h]

lemma JSNum.jmax_fin_fin (a b : ℚ) : JSNum.jmax (.fin a) (.fin b) = .fin (max a b) := by
  simp only [JSNum.jmax, JSNum.lt_fin_fin]
  rcases lt_or_le a b with h | h
  · simp [h, max_eq_right h.le]
  · simp [not_lt.mpr h, max_eq_left h]

lemma JSNum.sub_fin_fin (a b : ℚ) : JSNum.sub (.fin a) (.fin b) = .fin (a - b) := rfl

lemma JSNum.abs_fin (a : ℚ) : JSNum.abs (.fin a) = .fin |a| := rfl

/-- Finite-input characterization of `setPixelRatio`: the value actually
compared and stored is exactly `specClamp r`, and the store is skipped
precisely when the clamped request is within 0.01 of the current value. -/
lemma setPixelRatio_fin_eq (c r : ℚ) :
    setPixelRatio (.fin c) (.fin r) =
      if |specClamp r - c| < 1/100 then .fin c else .fin (specClamp r) := by
  have hclamp : (if JSNum.lt (.fin r) (.fin (1/10)) || JSNum.lt (.fin (3/2)) (.fin r)
      then JSNum.jmax (.fin (1/10)) (JSNum.jmin (.fin (3/2)) (.fin r))
      else .fin r) = .fin (specClamp r) := by
    simp only [JSNum.lt_fin_fin, JSNum.jmin_fin_fin, JSNum.jmax_fin_fin, specClamp]
    by_cases hcond : r < 1/10 ∨ (3/2 : ℚ) < r
    · have ht : (decide (r < 1/10) || decide ((3:ℚ)/2 < r)) = true := by
        rcases hcond with h | h
        · rw [decide_eq_true h, Bool.true_or]
        · rw [decide_eq_true h, Bool.or_true]
      rw [if_pos ht]
    · push_neg at hcond
      have e1 : decide (r < 1/10) = false := decide_eq_false (not_lt.mpr hcond.1)
      have e2 : decide ((3:ℚ)/2 < r) = false := decide_eq_false (not_lt.mpr hcond.2)
      have hcondb : (decide (r < 1/10) || decide ((3:ℚ)/2 < r)) = false := by
        rw [e1, e2, Bool.or_self]
      rw [if_neg (by rw [hcondb]; exact Bool.false_ne_true)]
      rw [min_eq_right hcond.2, max_eq_right hcond.1]
  simp only [setPixelRatio]
  rw [hclamp]
  simp only [JSNum.sub_fin_fin, JSNum.abs_fin, JSNum.lt_fin_fin, abs_sub_comm c (specClamp r)]
  by_cases h : |specClamp r - c| < 1/100
  · simp [h]
  · simp [h]

/-- The hysteresis callback is a no-op on the stored ratio whenever it runs
while Dynamic mode is off, and it always ends with no pending handle. -/
lemma fireTimer_inactive (s : DRSState) (h : s.isDynamicResolutionActive = false) :
    (fireTimer s).currentPixelRatio = s.currentPixelRatio ∧
    (fireTimer s).movementTimeoutId = false := by
  unfold fireTimer
  cases hm : s.movementTimeoutId
  · simp [hm]
  · simp [hm, h]

/-- Applying a Dynamic target over any manual-preset ratio stores exactly the
target: preset values and tier targets are either equal or at least 0.01
apart, and every target lies inside the clamp bounds. -/
lemma setPixelRatio_preset_to_target (c t : ℚ)
    (hc : ∃ p : PresetName, c = PIXEL_RATIO_PRESETS p)
    (ht : t = 7/20 ∨ t = 1/2 ∨ t = 1) :
    setPixelRatio (.fin c) (.fin t) = .fin t := by
  obtain ⟨p, rfl⟩ := hc
  rcases ht with rfl | rfl | rfl <;> cases p <;>
    norm_num [setPixelRatio, JSNum.lt, JSNum.sub, JSNum.abs, JSNum.jmin, JSNum.jmax, PIXEL_RATIO_PRESETS, abs_of_nonneg, abs_of_nonpos]

/-- On a check frame the culler's cached value always ends equal to the
consumed frustum result, and a write is emitted exactly when it changed. -/
lemma cullRun_writes (s : CullState) (rs : List Bool) :
    (cullRun s rs).2 = adjacentChanges s.lastVisibilityState rs := by
  induction rs generalizing s with
  | nil => rfl
  | cons r rs ih =>
    by_cases h : s.lastVisibilityState = r
    · simp [cullRun, adjacentChanges, frustumCheckFrame, h, ih]
    · simp [cullRun, adjacentChanges, frustumCheckFrame, h, ih]

/-- C1 (code bug): switching Dynamic to Manual does not reliably cancel the
pending hysteresis timer.  `applyPixelRatioPreset` calls
`deactivateDynamicResolution`, but that function's misplaced frame-counter
gate `if (++drsFrameCounter % DRS_CHECK_INTERVAL !== 0) return` returns
before anything is reset whenever the incremented counter is not a multiple
of 5.  Concretely, from a Dynamic desktop state at ratio 0.5 with a timer
pending and the counter at 0, applying the Medium preset leaves Dynamic mode
on and the timer outstanding, and when the original delay elapses the
callback overwrites the manual 0.5 with the high target 1.0. -/
theorem c1_manual_switch_leaves_timer_pending :
    (applyPixelRatioPreset envStd pendingDynamicState .MEDIUM).isDynamicResolutionActive
        = true ∧
    (applyPixelRatioPreset envStd pendingDynamicState .MEDIUM).movementTimeoutId = true ∧
    (applyPixelRatioPreset envStd pendingDynamicState .MEDIUM).currentPixelRatio
        = .fin (1/2) ∧
    (fireTimer (applyPixelRatioPreset envStd pendingDynamicState .MEDIUM)).currentPixelRatio
        = .fin 1 := by
  norm_num [applyPixelRatioPreset, deactivateDynamicResolution, fireTimer,
    applyDynamicResolution, setPixelRatio, JSNum.lt, JSNum.sub, JSNum.abs, JSNum.jmin, JSNum.jmax, DRS_CHECK_INTERVAL, envStd, pendingDynamicState,
    bootState, DEFAULT_PIXEL_RATIO, PIXEL_RATIO_PRESETS, abs_of_nonneg, abs_of_nonpos]

/-- C2 (code bug): `initWithDefaults` never takes the manual branch.  Its
`initialModeIsDynamic` flag is the literal `true` (despite the adjacent
"START IN MANUAL MODE" comment), so boot calls `activateDynamicResolution`:
afterwards Dynamic mode is active and no manual preset is recorded, on
desktop and on mobile alike. -/
theorem c2_boot_activates_dynamic :
    ((initWithDefaults envStd bootState).isDynamicResolutionActive = true ∧
     (initWithDefaults envStd bootState).currentPixelRatioPreset = none) ∧
    ((initWithDefaults envMobile bootState).isDynamicResolutionActive = true ∧
     (initWithDefaults envMobile bootState).currentPixelRatioPreset = none) := by
  norm_num [initWithDefaults, activateDynamicResolution, hasCameraMoved,
    applyDynamicResolution, setPixelRatio, JSNum.lt, JSNum.sub, JSNum.abs, JSNum.jmin, JSNum.jmax, envStd, envMobile, bootState, camStd,
    PIXEL_RATIO_PRESETS, DEFAULT_PIXEL_RATIO, Vec3.distanceSquared, Quat.dot,
    movementDetectionThresholdPosSq, movementDetectionThresholdRotDot,
    joystickMovementThreshold, abs_of_nonneg, abs_of_nonpos]

/-- C3 counterexample: the claim "stored ratio == clamp(r, 0.1, 1.5) for every
r" fails at r = 0.505 from the boot ratio 0.5: the clamped request differs
from the current value by 0.005 < 0.01, so `setPixelRatio` skips the store
and the ratio stays 0.5 instead of 0.505. -/
theorem c3_epsilon_counterexample :
    setPixelRatio (.fin DEFAULT_PIXEL_RATIO) (.fin (101/200))
      ≠ .fin (specClamp (101/200)) := by
  norm_num [setPixelRatio, JSNum.lt, JSNum.sub, JSNum.abs, JSNum.jmin, JSNum.jmax, specClamp, DEFAULT_PIXEL_RATIO, abs_of_nonneg, abs_of_nonpos]

/-- C3 (amended): for every finite numeric argument r, `setPixelRatio(r)`
stores exactly `clamp(r, 0.1, 1.5)` unless the clamped value is within the
0.01 idempotence epsilon of the current ratio, in which case the ratio is
left unchanged; in particular `setPixelRatio(2.0)` from the default 0.5
stores 1.5. -/
theorem c3_setRatio_clamps_outside_epsilon :
    (∀ c r : ℚ, setPixelRatio (.fin c) (.fin r) =
        if |specClamp r - c| < 1/100 then .fin c else .fin (specClamp r)) ∧
    setPixelRatio (.fin DEFAULT_PIXEL_RATIO) (.fin 2) = .fin (3/2) :=
  ⟨setPixelRatio_fin_eq, by
    norm_num [setPixelRatio, JSNum.lt, JSNum.sub, JSNum.abs, JSNum.jmin, JSNum.jmax, DEFAULT_PIXEL_RATIO, abs_of_nonneg, abs_of_nonpos]⟩

/-- C4: the stale-timer guard.  If a manual preset application did move the
mode away from Dynamic, then when the hysteresis callback later fires it is a
no-op: it does not apply the high target, leaves the stored pixel ratio
unchanged, and clears the pending handle. -/
theorem c4_stale_timer_guard (env : Env) (s : DRSState) (p : PresetName)
    (h : (applyPixelRatioPreset env s p).isDynamicResolutionActive = false) :
    (fireTimer (applyPixelRatioPreset env s p)).currentPixelRatio
        = (applyPixelRatioPreset env s p).currentPixelRatio ∧
    (fireTimer (applyPixelRatioPreset env s p)).movementTimeoutId = false :=
  fireTimer_inactive (applyPixelRatioPreset env s p) h

/-- C4 witness: from a Dynamic state whose frame counter is at 4, applying the
Medium preset really deactivates Dynamic mode, and the fired timer then
changes nothing. -/
theorem c4_stale_timer_guard_witness :
    (applyPixelRatioPreset envStd almostDeactState .MEDIUM).isDynamicResolutionActive
        = false ∧
    ((fireTimer (applyPixelRatioPreset envStd almostDeactState .MEDIUM)).currentPixelRatio
        = (applyPixelRatioPreset envStd almostDeactState .MEDIUM).currentPixelRatio ∧
     (fireTimer (applyPixelRatioPreset envStd almostDeactState .MEDIUM)).movementTimeoutId
        = false) :=
  ⟨by norm_num [applyPixelRatioPreset, deactivateDynamicResolution, envStd,
      almostDeactState, pendingDynamicState, bootState, DRS_CHECK_INTERVAL,
      setPixelRatio, JSNum.lt, JSNum.sub, JSNum.abs, JSNum.jmin, JSNum.jmax, PIXEL_RATIO_PRESETS, DEFAULT_PIXEL_RATIO, abs_of_nonneg, abs_of_nonpos],
   c4_stale_timer_guard envStd almostDeactState .MEDIUM (by
    norm_num [applyPixelRatioPreset, deactivateDynamicResolution, envStd,
      almostDeactState, pendingDynamicState, bootState, DRS_CHECK_INTERVAL,
      setPixelRatio, JSNum.lt, JSNum.sub, JSNum.abs, JSNum.jmin, JSNum.jmax, PIXEL_RATIO_PRESETS, DEFAULT_PIXEL_RATIO, abs_of_nonneg, abs_of_nonpos])⟩

/-- A forced movement check with an existing snapshot leaves the state
untouched: the source updates the snapshot only under `if (!forceCheck)`. -/
lemma hasCameraMoved_force_preserves (env : Env) (cam : Camera) (s : DRSState)
    (p0 : Vec3) (q0 : Quat)
    (hcam : env.camera = some cam)
    (heng : env.enginePresent = true)
    (hdisp : env.engineDisposed = false)
    (hp : s.lastCameraPosition = some p0)
    (hq : s.lastCameraRotationQ = some q0) :
    (hasCameraMoved env s true).2 = s := by
  simp [hasCameraMoved, hcam, heng, hdisp, hp, hq]

/-- A forced movement check reads only the camera, the joystick globals and
the snapshot, so it computes the same result on a state that differs only in
the mode fields, and leaves that state untouched. -/
lemma hasCameraMoved_force_mode_irrel (env : Env) (cam : Camera) (s : DRSState)
    (p0 : Vec3) (q0 : Quat) (b : Bool) (o : Option PresetName)
    (hcam : env.camera = some cam)
    (heng : env.enginePresent = true)
    (hdisp : env.engineDisposed = false)
    (hp : s.lastCameraPosition = some p0)
    (hq : s.lastCameraRotationQ = some q0) :
    hasCameraMoved env
        { s with isDynamicResolutionActive := b, currentPixelRatioPreset := o } true =
      ((hasCameraMoved env s true).1,
       { s with isDynamicResolutionActive := b, currentPixelRatioPreset := o }) := by
  simp [hasCameraMoved, hcam, heng, hdisp, hp, hq]

/-- C6: entering Dynamic mode forces a movement check and immediately applies
the tier's target through the ratio applier.  From any inactive state with a
snapshot in place, a camera present, and a manual-preset ratio stored, with
the tier targets as `initWithDefaults` derives them (mobile low 0.35 / high
0.5, desktop low 0.5 / high 1.0): if the forced check reports movement the
stored ratio becomes the low target, otherwise it becomes the high target and
no timer is left pending. -/
theorem c6_enter_dynamic (env : Env) (cam : Camera) (s : DRSState) (p0 : Vec3) (q0 : Quat)
    (hact : s.isDynamicResolutionActive = false)
    (hcam : env.camera = some cam)
    (heng : env.enginePresent = true)
    (hdisp : env.engineDisposed = false)
    (hp : s.lastCameraPosition = some p0)
    (hq : s.lastCameraRotationQ = some q0)
    (hpr : ∃ p : PresetName, s.currentPixelRatio = .fin (PIXEL_RATIO_PRESETS p))
    (htiers : (s.dynamicLowPixelRatio = 7/20 ∧ s.dynamicHighPixelRatio = 1/2) ∨
              (s.dynamicLowPixelRatio = 1/2 ∧ s.dynamicHighPixelRatio = 1)) :
    (activateDynamicResolution env s).isDynamicResolutionActive = true ∧
    (activateDynamicResolution env s).currentPixelRatio =
      .fin (if (hasCameraMoved env s true).1 then s.dynamicLowPixelRatio
            else s.dynamicHighPixelRatio) ∧
    ((hasCameraMoved env s true).1 = false →
      (activateDynamicResolution env s).movementTimeoutId = false) := by
  obtain ⟨pr, hprv⟩ := hpr
  have hlow : s.dynamicLowPixelRatio = 7/20 ∨ s.dynamicLowPixelRatio = 1/2 ∨
      s.dynamicLowPixelRatio = 1 := by
    rcases htiers with ⟨hl, _⟩ | ⟨hl, _⟩
    · exact Or.inl hl
    · exact Or.inr (Or.inl hl)
  have hhigh : s.dynamicHighPixelRatio = 7/20 ∨ s.dynamicHighPixelRatio = 1/2 ∨
      s.dynamicHighPixelRatio = 1 := by
    rcases htiers with ⟨_, hh⟩ | ⟨_, hh⟩
    · exact Or.inr (Or.inl hh)
    · exact Or.inr (Or.inr hh)
  have hirr := hasCameraMoved_force_mode_irrel env cam s p0 q0 true none hcam heng hdisp hp hq
  unfold activateDynamicResolution
  rw [hact]
  cases hM : (hasCameraMoved env s true).1 with
  | false =>
    simp only [Bool.false_eq_true, if_false, hirr, hM, applyDynamicResolution,
      eq_self_iff_true, if_true]
    refine ⟨trivial, ?_, fun _ => trivial⟩
    rw [hprv]
    exact setPixelRatio_preset_to_target _ _ ⟨pr, rfl⟩ hhigh
  | true =>
    simp only [Bool.false_eq_true, if_false, hirr, hM, applyDynamicResolution,
      eq_self_iff_true, if_true]
    refine ⟨trivial, ?_, fun hcontra => by simp at hcontra⟩
    rw [hprv]
    exact setPixelRatio_preset_to_target _ _ ⟨pr, rfl⟩ hlow

/-- C5 (amended): movement-snapshot refresh policy as the code implements it.
With a snapshot in place and camera and engine available: a call with
forceCheck = true leaves the snapshot (indeed the whole state) unchanged,
and a call with forceCheck = false refreshes the snapshot to the current
camera pose exactly when Dynamic mode is active or movement was detected on
that call, leaving it unchanged otherwise. -/
theorem c5_snapshot_refresh_policy (env : Env) (cam : Camera) (s : DRSState)
    (p0 : Vec3) (q0 : Quat) (f : Bool)
    (hcam : env.camera = some cam)
    (heng : env.enginePresent = true)
    (hdisp : env.engineDisposed = false)
    (hp : s.lastCameraPosition = some p0)
    (hq : s.lastCameraRotationQ = some q0) :
    (f = true → (hasCameraMoved env s f).2 = s) ∧
    (f = false →
      (hasCameraMoved env s f).2 =
        if s.isDynamicResolutionActive || (hasCameraMoved env s f).1 then
          { s with lastCameraPosition := some cam.position,
                   lastCameraRotationQ := some cam.rotationQuaternion }
        else s) := by
  constructor
  · rintro rfl
    exact hasCameraMoved_force_preserves env cam s p0 q0 hcam heng hdisp hp hq
  · rintro rfl
    simp [hasCameraMoved, hcam, heng, hdisp, hp, hq]

/-- C5 counterexample: the claim that forceCheck = true refreshes the
snapshot on every call fails.  With the snapshot at the origin pose and the
camera now at x = 1, a forced check returns with the snapshot still at the
origin — not the current camera position — because the update block runs
only when not forcing. -/
theorem c5_force_check_does_not_refresh :
    (hasCameraMoved envMovedCam bootState true).2.lastCameraPosition
        ≠ some camMoved.position ∧
    (hasCameraMoved envMovedCam bootState true).2 = bootState := by
  norm_num [hasCameraMoved, envMovedCam, envStd, camMoved, camStd, bootState,
    Vec3.distanceSquared, Quat.dot, movementDetectionThresholdPosSq,
    movementDetectionThresholdRotDot, joystickMovementThreshold,
    abs_of_nonneg, abs_of_nonpos]

/-- C5 witness: in Dynamic mode with the camera moved away from the
snapshot, a non-forced check refreshes the snapshot to the current pose. -/
theorem c5_snapshot_refresh_policy_witness :
    ((false : Bool) = true →
      (hasCameraMoved envMovedCam pendingDynamicState false).2 = pendingDynamicState) ∧
    ((false : Bool) = false →
      (hasCameraMoved envMovedCam pendingDynamicState false).2 =
        if pendingDynamicState.isDynamicResolutionActive ||
            (hasCameraMoved envMovedCam pendingDynamicState false).1 then
          { pendingDynamicState with
              lastCameraPosition := some camMoved.position,
              lastCameraRotationQ := some camMoved.rotationQuaternion }
        else pendingDynamicState) :=
  c5_snapshot_refresh_policy envMovedCam camMoved pendingDynamicState
    camStd.position camStd.rotationQuaternion false rfl rfl rfl rfl rfl

/-- C6 witness: scenario A — desktop tier, Manual Medium (0.5), stationary:
entering Dynamic yields ratio 1.0; scenario B — mobile (low-end included)
tier, moving at activation: entering Dynamic yields ratio 0.35. -/
theorem c6_enter_dynamic_witness :
    ((hasCameraMoved envStd manualMediumDesktop true).1 = false ∧
     (activateDynamicResolution envStd manualMediumDesktop).currentPixelRatio = .fin 1) ∧
    ((hasCameraMoved envMovedCam manualMediumMobile true).1 = true ∧
     (activateDynamicResolution envMovedCam manualMediumMobile).currentPixelRatio
        = .fin (7/20)) := by
  have hA := c6_enter_dynamic envStd camStd manualMediumDesktop
    camStd.position camStd.rotationQuaternion rfl rfl rfl rfl rfl rfl
    ⟨.MEDIUM, rfl⟩ (Or.inr ⟨rfl, rfl⟩)
  have hB := c6_enter_dynamic envMovedCam camMoved manualMediumMobile
    camStd.position camStd.rotationQuaternion rfl rfl rfl rfl rfl rfl
    ⟨.MEDIUM, rfl⟩ (Or.inl ⟨rfl, rfl⟩)
  have hmA : (hasCameraMoved envStd manualMediumDesktop true).1 = false := by
    norm_num [hasCameraMoved, envStd, camStd, manualMediumDesktop, bootState,
      Vec3.distanceSquared, Quat.dot, movementDetectionThresholdPosSq,
      movementDetectionThresholdRotDot, joystickMovementThreshold,
      abs_of_nonneg, abs_of_nonpos]
  have hmB : (hasCameraMoved envMovedCam manualMediumMobile true).1 = true := by
    norm_num [hasCameraMoved, envMovedCam, envStd, camMoved, camStd,
      manualMediumMobile, bootState, Vec3.distanceSquared, Quat.dot,
      movementDetectionThresholdPosSq, movementDetectionThresholdRotDot,
      joystickMovementThreshold, abs_of_nonneg, abs_of_nonpos]
  refine ⟨⟨hmA, ?_⟩, ⟨hmB, ?_⟩⟩
  · rw [hA.2.1, hmA]
    norm_num [manualMediumDesktop, bootState]
  · rw [hB.2.1, hmB]
    norm_num [manualMediumMobile, bootState]

/-- C7 (code bug): NaN breaches the pixel-ratio bounds invariant.  From the
boot ratio 0.5, a single `setPixelRatio(NaN)` call stores NaN: `typeof NaN`
is `'number'`, `NaN < 0.1`, `NaN > 1.5` and `|0.5 - NaN| < 0.01` are all
false, so neither the clamp nor the idempotence skip intervenes and the
stored state leaves [0.1, 1.5]. -/
theorem c7_nan_breaks_ratio_bounds :
    applyRatioCalls (.fin DEFAULT_PIXEL_RATIO) [JSNum.nan] = JSNum.nan ∧
    ratioInBounds (applyRatioCalls (.fin DEFAULT_PIXEL_RATIO) [JSNum.nan]) = false := by
  norm_num [applyRatioCalls, ratioInBounds, setPixelRatio, JSNum.lt, JSNum.sub, JSNum.abs, JSNum.jmin, JSNum.jmax, DEFAULT_PIXEL_RATIO]

/-- C8: visibility writes happen exactly on value transitions of the frustum
result relative to the cached last value, and the sequence
[true, true, false, false, true] from the initial cached `true` produces
exactly two writes. -/
theorem c8_visibility_writes_on_transitions :
    (∀ (s : CullState) (results : List Bool),
        (cullRun s results).2 = adjacentChanges s.lastVisibilityState results) ∧
    (cullRun { lastVisibilityState := true, meshVisible := true }
        [true, true, false, false, true]).2 = 2 :=
  ⟨cullRun_writes, by decide⟩

/-- C9: fail-open culling.  On a check frame with no bounding information the
culler ends with the entity visible, whatever the frustum test would have
returned: the cached value becomes `true` and the mesh flag is `true`
(written when it was not already). -/
theorem c9_fail_open (s : CullState) (inFrustum : Bool)
    (hsync : s.meshVisible = s.lastVisibilityState) :
    (frustumCheckFrame s false inFrustum).1.meshVisible = true ∧
    (frustumCheckFrame s false inFrustum).1.lastVisibilityState = true := by
  unfold frustumCheckFrame
  cases hl : s.lastVisibilityState
  · simp [hl]
  · simp [hl, hsync]

/-- C9 witness: a currently hidden entity with no bounding information is
flipped back to visible by the check, even when the frustum test would say
not visible. -/
theorem c9_fail_open_witness :
    ({ lastVisibilityState := false, meshVisible := false } : CullState).meshVisible
        = ({ lastVisibilityState := false, meshVisible := false } : CullState).lastVisibilityState ∧
    ((frustumCheckFrame { lastVisibilityState := false, meshVisible := false } false false).1.meshVisible
        = true ∧
     (frustumCheckFrame { lastVisibilityState := false, meshVisible := false } false false).1.lastVisibilityState
        = true) :=
  ⟨rfl, c9_fail_open { lastVisibilityState := false, meshVisible := false } false rfl⟩

/-- C10: the culler's interval choice never sees the DRS movement flag.  The
`window.isConsideredMoving` read is always `undefined`/false because the DRS
flag is script-local and never assigned to `window`, so with the joystick
inactive every tier uses its stationary interval (60 / 45 / 30) no matter
what the DRS movement state is, and the interval is entirely independent of
the DRS state. -/
theorem c10_culler_interval_ignores_drs_movement :
    (∀ (s : DRSState) (isLowEnd isMobile : Bool),
        checkInterval isLowEnd isMobile false (windowIsConsideredMoving s) =
          if isLowEnd then 60 else if isMobile then 45 else 30) ∧
    (∀ (s t : DRSState) (isLowEnd isMobile joy : Bool),
        checkInterval isLowEnd isMobile joy (windowIsConsideredMoving s) =
          checkInterval isLowEnd isMobile joy (windowIsConsideredMoving t)) := by
  constructor
  · intro s le m
    cases le <;> cases m <;> rfl
  · intro s t le m j
    rfl

/-- Bounds preservation for every non-NaN request: finite values are clamped
into [0.1, 1.5] (or skipped, leaving an in-bounds value), and the infinities
are clamped to the bounds themselves.  Only NaN escapes the invariant. -/
lemma setPixelRatio_preserves_bounds (cur r : JSNum)
    (hcur : ratioInBounds cur = true) (hr : r ≠ .nan) :
    ratioInBounds (setPixelRatio cur r) = true := by
  cases cur with
  | nan => simp [ratioInBounds] at hcur
  | posInf => simp [ratioInBounds] at hcur
  | negInf => simp [ratioInBounds] at hcur
  | fin c =>
    have hc : 1/10 ≤ c ∧ c ≤ 3/2 := by
      simpa [ratioInBounds] using hcur
    cases r with
    | nan => exact absurd rfl hr
    | posInf =>
      have h1 : setPixelRatio (.fin c) .posInf =
          if |c - 3/2| < 1/100 then .fin c else .fin (3/2) := by
        norm_num [setPixelRatio, JSNum.lt, JSNum.jmin, JSNum.jmax, JSNum.sub, JSNum.abs]
      rw [h1]
      split_ifs
      · exact hcur
      · norm_num [ratioInBounds]
    | negInf =>
      have h1 : setPixelRatio (.fin c) .negInf =
          if |c - 1/10| < 1/100 then .fin c else .fin (1/10) := by
        norm_num [setPixelRatio, JSNum.lt, JSNum.jmin, JSNum.jmax, JSNum.sub, JSNum.abs]
      rw [h1]
      split_ifs
      · exact hcur
      · norm_num [ratioInBounds]
    | fin q =>
      rw [setPixelRatio_fin_eq]
      split_ifs
      · exact hcur
      · have hlo : 1/10 ≤ specClamp q := le_max_left _ _
        have hhi : specClamp q ≤ 3/2 :=
          max_le (by norm_num) (min_le_left _ _)
        simp only [ratioInBounds, decide_eq_true_eq]
        exact ⟨hlo, hhi⟩
